import Mathlib

/-!
Shallow embedding of the orientation-estimation and magnetometer-calibration
core of the polaris-navigator firmware, together with proofs about the
properties its specification claims.

Modelling conventions:
* C `float` arithmetic is idealized as exact real arithmetic (`ℝ`) in the
  fusion filter (which needs `sqrt`, `asin`, `atan2`), and as exact rational
  arithmetic (`ℚ`) in the calibration code (whose arithmetic is rational).
* Wall-clock times (`millis()`) are natural-number inputs; the elapsed-time
  subtraction of unsigned C arithmetic is `Nat` truncated subtraction.
* Sensor reads are passed as explicit per-call inputs.
-/

/-- Orientation quaternion state `(_q0,_q1,_q2,_q3)` of `IMUFusion`. -/
structure Quat where
  q0 : ℝ
  q1 : ℝ
  q2 : ℝ
  q3 : ℝ

/-- A triple of sensor-sample components (accel / gyro / mag reading). -/
structure V3 where
  x : ℝ
  y : ℝ
  z : ℝ

/-- Constant `DEG_TO_RAD` from IMUFusion.cpp. -/
noncomputable def DEG_TO_RAD : ℝ := 0.01745329251

/-- Constant `RAD_TO_DEG` from IMUFusion.cpp. -/
noncomputable def RAD_TO_DEG : ℝ := 57.2957795131

/-- The squared-norm expression `_q0*_q0 + _q1*_q1 + _q2*_q2 + _q3*_q3`
appearing in `IMUFusion::normalizeQuaternion`. -/
noncomputable def normSq (q : Quat) : ℝ :=
  q.q0 * q.q0 + q.q1 * q.q1 + q.q2 * q.q2 + q.q3 * q.q3

/-- `IMUFusion::normalizeQuaternion` (identical in both source variants):
divide by the Euclidean norm, guarded by `norm > 0`, otherwise leave the
quaternion unchanged. -/
noncomputable def normalizeQuaternion (q : Quat) : Quat :=
  let norm := Real.sqrt (normSq q)
  if 0 < norm then ⟨q.q0 / norm, q.q1 / norm, q.q2 / norm, q.q3 / norm⟩ else q

/-- The quaternion-integration lines of the root-variant `IMUFusion::update`
(IMUFusion.cpp lines 163-171).  `pa`, `pb`, `pc` save the old vector part, but
`_q0` is updated first, so the later components read the already-updated
`_q0` — the sequential semantics of the C code is reproduced exactly.
`c` is the factor `0.5f * deltaTime`. -/
noncomputable def integrateQuat (q : Quat) (gx gy gz c : ℝ) : Quat :=
  let pa := q.q1
  let pb := q.q2
  let pc := q.q3
  let nq0 := q.q0 + (-q.q1 * gx - q.q2 * gy - q.q3 * gz) * c
  let nq1 := q.q1 + (nq0 * gx + pb * gz - pc * gy) * c
  let nq2 := q.q2 + (nq0 * gy - pa * gz + pc * gx) * c
  let nq3 := q.q3 + (nq0 * gz + pa * gy - pb * gx) * c
  ⟨nq0, nq1, nq2, nq3⟩

/-- Root-variant `IMUFusion::update` (IMUFusion.cpp lines 80-178), the
Mahony-style error-feedback filter.  The guarded accel/mag normalizations,
the estimated gravity / magnetic-field directions, the cross-product error
terms (magnetometer terms only when `_isCalibrated`), the proportional
feedback with `_filterGain`, the sequential quaternion integration and the
final normalization are translated line by line. -/
noncomputable def fusionUpdate (isCal : Bool) (filterGain : ℝ) (q : Quat)
    (gyr acc mag : V3) (deltaTime : ℝ) : Quat :=
  let gx := gyr.x * DEG_TO_RAD
  let gy := gyr.y * DEG_TO_RAD
  let gz := gyr.z * DEG_TO_RAD
  let ax := acc.x
  let ay := acc.y
  let az := acc.z
  let mx := mag.x
  let my := mag.y
  let mz := mag.z
  let normAcc := Real.sqrt (ax * ax + ay * ay + az * az)
  let ax := if 0 < normAcc then ax / normAcc else ax
  let ay := if 0 < normAcc then ay / normAcc else ay
  let az := if 0 < normAcc then az / normAcc else az
  let normMag := Real.sqrt (mx * mx + my * my + mz * mz)
  let mx := if 0 < normMag then mx / normMag else mx
  let my := if 0 < normMag then my / normMag else my
  let mz := if 0 < normMag then mz / normMag else mz
  let q0q0 := q.q0 * q.q0
  let q0q1 := q.q0 * q.q1
  let q0q2 := q.q0 * q.q2
  let q0q3 := q.q0 * q.q3
  let q1q1 := q.q1 * q.q1
  let q1q2 := q.q1 * q.q2
  let q1q3 := q.q1 * q.q3
  let q2q2 := q.q2 * q.q2
  let q2q3 := q.q2 * q.q3
  let q3q3 := q.q3 * q.q3
  let hx := 2 * (mx * (0.5 - q2q2 - q3q3) + my * (q1q2 - q0q3) + mz * (q1q3 + q0q2))
  let hy := 2 * (mx * (q1q2 + q0q3) + my * (0.5 - q1q1 - q3q3) + mz * (q2q3 - q0q1))
  let hz := 2 * (mx * (q1q3 - q0q2) + my * (q2q3 + q0q1) + mz * (0.5 - q1q1 - q2q2))
  let gravityX := 2 * (q1q3 - q0q2)
  let gravityY := 2 * (q0q1 + q2q3)
  let gravityZ := q0q0 - q1q1 - q2q2 + q3q3
  let ex := ay * gravityZ - az * gravityY
  let ey := az * gravityX - ax * gravityZ
  let ez := ax * gravityY - ay * gravityX
  let magX := 2 * (hx * (0.5 - q2q2 - q3q3) + hy * (q1q2 - q0q3) + hz * (q1q3 + q0q2))
  let magY := 2 * (hx * (q1q2 + q0q3) + hy * (0.5 - q1q1 - q3q3) + hz * (q2q3 - q0q1))
  let magZ := 2 * (hx * (q1q3 - q0q2) + hy * (q2q3 + q0q1) + hz * (0.5 - q1q1 - q2q2))
  let ex := if isCal then ex + (my * magZ - mz * magY) else ex
  let ey := if isCal then ey + (mz * magX - mx * magZ) else ey
  let ez := if isCal then ez + (mx * magY - my * magX) else ez
  let gx := gx + filterGain * ex
  let gy := gy + filterGain * ey
  let gz := gz + filterGain * ez
  normalizeQuaternion (integrateQuat q gx gy gz (0.5 * deltaTime))

/-- One tick of input to the root-variant filter: calibration flag, filter
gain and the three sensor samples plus the time step. -/
structure FusionIn where
  isCal : Bool
  gain : ℝ
  gyr : V3
  acc : V3
  mag : V3
  dt : ℝ

/-- A run of the root-variant filter over a sequence of `update()` calls,
starting from the identity quaternion set up by the `IMUFusion` constructor. -/
noncomputable def runFusion (ins : List FusionIn) : Quat :=
  ins.foldl (fun q i => fusionUpdate i.isCal i.gain q i.gyr i.acc i.mag i.dt) ⟨1, 0, 0, 0⟩

/-- The C standard-library `atan2`, idealized over `ℝ` (used by
`BMM150class::calculateTiltCompensatedHeading` and the Euler conversion). -/
noncomputable def atan2 (y x : ℝ) : ℝ :=
  if 0 < x then Real.arctan (y / x)
  else if x < 0 ∧ 0 ≤ y then Real.arctan (y / x) + Real.pi
  else if x < 0 ∧ y < 0 then Real.arctan (y / x) - Real.pi
  else if x = 0 ∧ 0 < y then Real.pi / 2
  else if x = 0 ∧ y < 0 then -(Real.pi / 2)
  else 0

/-- The `deltaTime` sanity logic at the head of the src-variant
`IMUFusion::update` (src/IMUFusion.cpp lines 88-98): a non-positive argument
is replaced by the wall-clock interval since the previous call (supplied
here as `wallDt`, in seconds), and that recomputed interval falls back to
10 ms when it is non-positive or exceeds 1 s.  A positive argument is used
unchanged. -/
noncomputable def effectiveDeltaTime (deltaTime wallDt : ℝ) : ℝ :=
  if deltaTime ≤ 0 then
    if wallDt ≤ 0 ∨ 1 < wallDt then 0.01 else wallDt
  else deltaTime

/-- `BMM150class::calculateTiltCompensatedHeading`: tilt-compensate the
stored magnetometer vector with the current pitch/roll (degrees), then
`atan2` heading wrapped into `[0, 360)` by a single conditional add. -/
noncomputable def calculateTiltCompensatedHeading (magx magy magz pitch roll : ℝ) : ℝ :=
  let pitch_rad := pitch * Real.pi / 180
  let roll_rad := roll * Real.pi / 180
  let mag_x_comp := magx * Real.cos pitch_rad + magz * Real.sin pitch_rad
  let mag_y_comp := magx * Real.sin roll_rad * Real.sin pitch_rad +
    magy * Real.cos roll_rad - magz * Real.sin roll_rad * Real.cos pitch_rad
  let heading := atan2 mag_y_comp mag_x_comp * 180 / Real.pi
  if heading < 0 then heading + 360 else heading

/-- The terminating effect of the `while (_yaw < 0) _yaw += 360` /
`while (_yaw >= 360) _yaw -= 360` loop pair: reduction into `[0, 360)`. -/
noncomputable def wrap360 (y : ℝ) : ℝ := y - 360 * ⌊y / 360⌋

/-- Filter state of the src-variant `IMUFusion` (complementary filter):
quaternion, Euler angles, complementary blend factor `_alpha` and the
calibration flag. -/
structure CompState where
  q : Quat
  yaw : ℝ
  pitch : ℝ
  roll : ℝ
  alpha : ℝ
  isCalibrated : Bool

/-- The src-variant quaternion integration (src/IMUFusion.cpp lines
141-150): all four derivatives are computed from the old quaternion before
any component is updated. -/
noncomputable def compIntegrate (q : Quat) (gx gy gz dt : ℝ) : Quat :=
  let q0_dot := 0.5 * (-q.q1 * gx - q.q2 * gy - q.q3 * gz)
  let q1_dot := 0.5 * (q.q0 * gx + q.q2 * gz - q.q3 * gy)
  let q2_dot := 0.5 * (q.q0 * gy - q.q1 * gz + q.q3 * gx)
  let q3_dot := 0.5 * (q.q0 * gz + q.q1 * gy - q.q2 * gx)
  ⟨q.q0 + q0_dot * dt, q.q1 + q1_dot * dt, q.q2 + q2_dot * dt, q.q3 + q3_dot * dt⟩

/-- Src-variant `IMUFusion::update` (src/IMUFusion.cpp lines 87-178):
`deltaTime` sanity fallback, guarded accel/mag normalization, gyro
quaternion integration and normalization, Euler conversion
(`updateEulerAngles`, which does not touch `_yaw`), complementary blending
of pitch/roll toward the accel estimate, and complementary blending of yaw
toward the tilt-compensated magnetometer heading — the latter performed
unconditionally, with no `_isCalibrated` test. -/
noncomputable def compUpdate (st : CompState) (deltaTime wallDt : ℝ)
    (gyr acc mag : V3) : CompState :=
  let dt := effectiveDeltaTime deltaTime wallDt
  let gx := gyr.x * DEG_TO_RAD
  let gy := gyr.y * DEG_TO_RAD
  let gz := gyr.z * DEG_TO_RAD
  let ax := acc.x
  let ay := acc.y
  let az := acc.z
  let normAcc := Real.sqrt (ax * ax + ay * ay + az * az)
  let ax := if 0 < normAcc then ax / normAcc else ax
  let ay := if 0 < normAcc then ay / normAcc else ay
  let az := if 0 < normAcc then az / normAcc else az
  let mx := mag.x
  let my := mag.y
  let mz := mag.z
  let normMag := Real.sqrt (mx * mx + my * my + mz * mz)
  let mx := if 0 < normMag then mx / normMag else mx
  let my := if 0 < normMag then my / normMag else my
  let mz := if 0 < normMag then mz / normMag else mz
  let accelPitch := Real.arcsin (-ax) * RAD_TO_DEG
  let accelRoll := atan2 ay az * RAD_TO_DEG
  let nq := normalizeQuaternion (compIntegrate st.q gx gy gz dt)
  let roll1 := atan2 (2 * (nq.q0 * nq.q1 + nq.q2 * nq.q3))
    (1 - 2 * (nq.q1 * nq.q1 + nq.q2 * nq.q2)) * RAD_TO_DEG
  let pitch1 := Real.arcsin (2 * (nq.q0 * nq.q2 - nq.q3 * nq.q1)) * RAD_TO_DEG
  let pitch2 := st.alpha * pitch1 + (1 - st.alpha) * accelPitch
  let roll2 := st.alpha * roll1 + (1 - st.alpha) * accelRoll
  let magHeading := calculateTiltCompensatedHeading mag.x mag.y mag.z pitch2 roll2
  let yawDiff := magHeading - st.yaw
  let yawDiff := if 180 < yawDiff then yawDiff - 360 else yawDiff
  let yawDiff := if yawDiff < -180 then yawDiff + 360 else yawDiff
  let yaw1 := st.yaw + yawDiff * (1 - st.alpha) * 0.5
  { st with q := nq, yaw := wrap360 yaw1, pitch := pitch2, roll := roll2 }

/-- State after the src-variant `IMUFusion` constructor: identity
quaternion, zero Euler angles, `_alpha = 0.98`, not calibrated. -/
noncomputable def initCompState : CompState :=
  ⟨⟨1, 0, 0, 0⟩, 0, 0, 0, 0.98, false⟩

/-- One tick of input to the src-variant filter. -/
structure CompIn where
  deltaTime : ℝ
  wallDt : ℝ
  gyr : V3
  acc : V3
  mag : V3

/-- A run of the src-variant filter from its constructor state. -/
noncomputable def runComp (ins : List CompIn) : CompState :=
  ins.foldl (fun st i => compUpdate st i.deltaTime i.wallDt i.gyr i.acc i.mag) initCompState

/-- State of the `myIMU` MahonyAHRS globals: the quaternion `q[4]` and the
integral error `eInt[3]`. -/
structure MahonyState where
  q : Quat
  eInt : V3

/-- Quaternion integration and (unguarded) normalization at the tail of
`myIMU::MahonyAHRSupdate` (myMahonyAHRS.cpp lines 90-104): `qa,qb,qc` save
the old components and `q[3]` is read before being written, so all four
new components are computed from the old quaternion; the final division by
the norm has no positivity guard. -/
noncomputable def mahonyIntegrate (q : Quat) (gx gy gz dt : ℝ) : Quat :=
  let qa := q.q0
  let qb := q.q1
  let qc := q.q2
  let n0 := q.q0 + (-qb * gx - qc * gy - q.q3 * gz) * (0.5 * dt)
  let n1 := q.q1 + (qa * gx + qc * gz - q.q3 * gy) * (0.5 * dt)
  let n2 := q.q2 + (qa * gy - qb * gz + q.q3 * gx) * (0.5 * dt)
  let n3 := q.q3 + (qa * gz + qb * gy - qc * gx) * (0.5 * dt)
  let norm := Real.sqrt (n0 * n0 + n1 * n1 + n2 * n2 + n3 * n3)
  ⟨n0 / norm, n1 / norm, n2 / norm, n3 / norm⟩

/-- `myIMU::MahonyAHRSupdate` (myMahonyAHRS.cpp lines 22-105).  The
accelerometer block is skipped entirely for an all-zero accel sample; inside
it, the magnetometer path is used only for a non-zero mag sample, otherwise
the gravity-only error is used.  `myKp`/`myKi` are passed as parameters. -/
noncomputable def mahonyUpdate (Kp Ki : ℝ) (st : MahonyState) (g a m : V3)
    (dt : ℝ) : MahonyState :=
  let q := st.q
  let corr :=
    if ¬(a.x = 0 ∧ a.y = 0 ∧ a.z = 0) then
      let norm1 := Real.sqrt (a.x * a.x + a.y * a.y + a.z * a.z)
      let ax := a.x / norm1
      let ay := a.y / norm1
      let az := a.z / norm1
      let e :=
        if ¬(m.x = 0 ∧ m.y = 0 ∧ m.z = 0) then
          let norm2 := Real.sqrt (m.x * m.x + m.y * m.y + m.z * m.z)
          let mx := m.x / norm2
          let my := m.y / norm2
          let mz := m.z / norm2
          let hx := 2 * (mx * (0.5 - q.q2 * q.q2 - q.q3 * q.q3) +
            my * (q.q1 * q.q2 - q.q0 * q.q3) + mz * (q.q1 * q.q3 + q.q0 * q.q2))
          let hy := 2 * (mx * (q.q1 * q.q2 + q.q0 * q.q3) +
            my * (0.5 - q.q1 * q.q1 - q.q3 * q.q3) + mz * (q.q2 * q.q3 - q.q0 * q.q1))
          let hz := 2 * (mx * (q.q1 * q.q3 - q.q0 * q.q2) +
            my * (q.q2 * q.q3 + q.q0 * q.q1) + mz * (0.5 - q.q1 * q.q1 - q.q2 * q.q2))
          let bx := Real.sqrt (hx * hx + hy * hy)
          let bz := hz
          let wx := 2 * bx * (0.5 - q.q2 * q.q2 - q.q3 * q.q3) +
            2 * bz * (q.q1 * q.q3 - q.q0 * q.q2)
          let wy := 2 * bx * (q.q1 * q.q2 - q.q0 * q.q3) +
            2 * bz * (q.q0 * q.q1 + q.q2 * q.q3)
          let wz := 2 * bx * (q.q0 * q.q2 + q.q1 * q.q3) +
            2 * bz * (0.5 - q.q1 * q.q1 - q.q2 * q.q2)
          V3.mk (ay * wz - az * wy) (az * wx - ax * wz) (ax * wy - ay * wx)
        else
          let vx := 2 * (q.q1 * q.q3 - q.q0 * q.q2)
          let vy := 2 * (q.q0 * q.q1 + q.q2 * q.q3)
          let vz := q.q0 * q.q0 - q.q1 * q.q1 - q.q2 * q.q2 + q.q3 * q.q3
          V3.mk (ay * vz - az * vy) (az * vx - ax * vz) (ax * vy - ay * vx)
      let e0 := st.eInt.x + e.x * Ki * dt
      let e1 := st.eInt.y + e.y * Ki * dt
      let e2 := st.eInt.z + e.z * Ki * dt
      (g.x + Kp * e.x + e0, g.y + Kp * e.y + e1, g.z + Kp * e.z + e2, V3.mk e0 e1 e2)
    else
      (g.x, g.y, g.z, st.eInt)
  ⟨mahonyIntegrate q corr.1 corr.2.1 corr.2.2.1 dt, corr.2.2.2⟩

/-- One tick of input to the MahonyAHRS filter. -/
structure MahonyIn where
  g : V3
  a : V3
  m : V3
  dt : ℝ

/-- A run of `MahonyAHRSupdate` calls from the `MahonyAHRSinit` state
(identity quaternion, zero integral error). -/
noncomputable def runMahony (Kp Ki : ℝ) (ins : List MahonyIn) : MahonyState :=
  ins.foldl (fun st i => mahonyUpdate Kp Ki st i.g i.a i.m i.dt) ⟨⟨1, 0, 0, 0⟩, ⟨0, 0, 0⟩⟩

/-- Calibration-relevant state of `BMM150class`: hard-iron offsets, scale
factors, the calibration flag, the per-axis raw min/max (int16 values,
modelled as `ℤ`), the session start time and the sample count. -/
structure BMM150State where
  hard_iron_x : ℚ
  hard_iron_y : ℚ
  hard_iron_z : ℚ
  scale_x : ℚ
  scale_y : ℚ
  scale_z : ℚ
  isCalibrated : Bool
  min_x : ℤ
  max_x : ℤ
  min_y : ℤ
  max_y : ℤ
  min_z : ℤ
  max_z : ℤ
  calibrationStartTime : ℕ
  sampleCount : ℕ
deriving DecidableEq

/-- The per-axis range computation of `BMM150class::calibrateStep`
(lines 193-200): half the min-to-max extent, floored at `1.0` to avoid a
division by zero. -/
def flooredRange (lo hi : ℤ) : ℚ :=
  let r := ((hi - lo : ℤ) : ℚ) / 2
  if r < 1 then 1 else r

/-- `BMM150class::calibrateStep` (src/BMM150class.cpp lines 160-276).
`firstStep` resets the min/max trackers and the timers.  Otherwise, once
`millis() - _calibrationStartTime >= 15000` the evaluation runs: hard-iron
offsets `(min+max)/2`, floored half-ranges, the average range, the scale
factors `avg/range`, and the two-part quality gate (`range >= 100` on each
axis and `min_range >= max_range * 0.3`), whose outcome becomes
`isCalibrated`; the step then reports completion.  Before the deadline a raw
sample is folded into the min/max trackers and the step reports
in-progress.  The returned `Bool` is the C return value
(`true` = calibration complete). -/
def bmm150CalibrateStep (firstStep : Bool) (now : ℕ) (raw : ℤ × ℤ × ℤ)
    (st : BMM150State) : BMM150State × Bool :=
  if firstStep then
    ({ st with min_x := 32767, max_x := -32768, min_y := 32767, max_y := -32768,
               min_z := 32767, max_z := -32768,
               calibrationStartTime := now, sampleCount := 0 }, false)
  else
    let elapsedTime := now - st.calibrationStartTime
    if 15000 ≤ elapsedTime then
      let hx := ((st.min_x + st.max_x : ℤ) : ℚ) / 2
      let hy := ((st.min_y + st.max_y : ℤ) : ℚ) / 2
      let hz := ((st.min_z + st.max_z : ℤ) : ℚ) / 2
      let range_x := flooredRange st.min_x st.max_x
      let range_y := flooredRange st.min_y st.max_y
      let range_z := flooredRange st.min_z st.max_z
      let avg_range := (range_x + range_y + range_z) / 3
      let sx := avg_range / range_x
      let sy := avg_range / range_y
      let sz := avg_range / range_z
      let quality1 := true
      let quality2 :=
        if range_x < 100 ∨ range_y < 100 ∨ range_z < 100 then false else quality1
      let max_range := max range_x (max range_y range_z)
      let min_range := min range_x (min range_y range_z)
      let quality_ok :=
        if min_range < max_range * (3 / 10) then false else quality2
      ({ st with hard_iron_x := hx, hard_iron_y := hy, hard_iron_z := hz,
                 scale_x := sx, scale_y := sy, scale_z := sz,
                 isCalibrated := quality_ok }, true)
    else
      ({ st with
          min_x := if raw.1 < st.min_x then raw.1 else st.min_x,
          max_x := if st.max_x < raw.1 then raw.1 else st.max_x,
          min_y := if raw.2.1 < st.min_y then raw.2.1 else st.min_y,
          max_y := if st.max_y < raw.2.1 then raw.2.1 else st.max_y,
          min_z := if raw.2.2 < st.min_z then raw.2.2 else st.min_z,
          max_z := if st.max_z < raw.2.2 then raw.2.2 else st.max_z,
          sampleCount := st.sampleCount + 1 }, false)

/-- The `CalibrationState` enum of CalibrationManager.h. -/
inductive CalState where
  | IDLE
  | ACCEL_START
  | ACCEL_COLLECT
  | ACCEL_COMPLETE
  | MAG_START
  | MAG_COLLECT
  | MAG_COMPLETE
  | COMPLETE
deriving DecidableEq

/-- A three-component rational vector (per-axis calibration values). -/
structure Vec3Q where
  x : ℚ
  y : ℚ
  z : ℚ
deriving DecidableEq

/-- The `CalibrationData` struct: accel/mag offsets, scale factors,
per-sensor calibrated flags and the completion timestamp. -/
structure CalibrationData where
  accelOffset : Vec3Q
  accelScale : Vec3Q
  magOffset : Vec3Q
  magScale : Vec3Q
  accelCalibrated : Bool
  magCalibrated : Bool
  timestamp : ℕ
deriving DecidableEq

/-- The key/value entries of the `Preferences` namespace "polaris-nav"
touched by `CalibrationManager::saveCalibrationData`.  `none` means the key
is absent (never written). -/
structure PrefStore where
  cal_valid : Option Bool
  accel_cal : Option Bool
  accel_o : Option Vec3Q
  accel_s : Option Vec3Q
  mag_cal : Option Bool
  mag_o : Option Vec3Q
  mag_s : Option Vec3Q
  cal_time : Option ℕ
deriving DecidableEq

/-- Full state of a `CalibrationManager` together with its preferences
store: state-machine state, calibration data, min/max trackers, sample
counters and timers. -/
structure CMState where
  calState : CalState
  data : CalibrationData
  accelMin : Vec3Q
  accelMax : Vec3Q
  magMin : Vec3Q
  magMax : Vec3Q
  sampleCount : ℕ
  requiredSamples : ℕ
  calibrationStartTime : ℕ
  lastUpdateTime : ℕ
  store : PrefStore
deriving DecidableEq

/-- `CalibrationManager::resetCalibration`: zero offsets, unit scales,
both calibrated flags cleared, timestamp zero. -/
def resetCalibrationData : CalibrationData :=
  ⟨⟨0, 0, 0⟩, ⟨1, 1, 1⟩, ⟨0, 0, 0⟩, ⟨1, 1, 1⟩, false, false, 0⟩

/-- `CalibrationManager::startCalibration(bool accel, bool mag)`
(CalibrationManager.cpp lines 44-77): reset the calibration data, pick the
starting state and min/max initialization for the first sensor to
calibrate, and record the start time; with neither sensor requested the
state returns to `CAL_IDLE` before the timers are touched. -/
def cmStartCalibration (accel mag : Bool) (now : ℕ) (st : CMState) : CMState :=
  let st := { st with data := resetCalibrationData }
  if accel then
    { st with calState := .ACCEL_START,
              accelMin := ⟨1000, 1000, 1000⟩, accelMax := ⟨-1000, -1000, -1000⟩,
              calibrationStartTime := now, lastUpdateTime := now, sampleCount := 0 }
  else if mag then
    { st with calState := .MAG_START,
              magMin := ⟨1000, 1000, 1000⟩, magMax := ⟨-1000, -1000, -1000⟩,
              calibrationStartTime := now, lastUpdateTime := now, sampleCount := 0 }
  else
    { st with calState := .IDLE }

/-- `CalibrationManager::collectAccelSample`: fold one accelerometer
reading into the min/max trackers and count it. -/
def collectAccelSample (s : Vec3Q) (st : CMState) : CMState :=
  { st with
      accelMin := ⟨min st.accelMin.x s.x, min st.accelMin.y s.y, min st.accelMin.z s.z⟩,
      accelMax := ⟨max st.accelMax.x s.x, max st.accelMax.y s.y, max st.accelMax.z s.z⟩,
      sampleCount := st.sampleCount + 1 }

/-- `CalibrationManager::collectMagSample`: fold one magnetometer reading
into the min/max trackers and count it. -/
def collectMagSample (s : Vec3Q) (st : CMState) : CMState :=
  { st with
      magMin := ⟨min st.magMin.x s.x, min st.magMin.y s.y, min st.magMin.z s.z⟩,
      magMax := ⟨max st.magMax.x s.x, max st.magMax.y s.y, max st.magMax.z s.z⟩,
      sampleCount := st.sampleCount + 1 }

/-- Per-axis scale rule of `CalibrationManager::calculateAccelCalibration`
and `calculateMagCalibration`: `2.0 / range` when the range exceeds `0.01`,
else the default `1.0`. -/
def cmScale (lo hi : ℚ) : ℚ :=
  let range := hi - lo
  if 1 / 100 < range then 2 / range else 1

/-- `CalibrationManager::calculateAccelCalibration` (lines 437-452):
offsets are the min/max midpoints, scales follow `cmScale`. -/
def calculateAccelCalibration (st : CMState) : CMState :=
  { st with data := { st.data with
      accelOffset := ⟨(st.accelMin.x + st.accelMax.x) / 2,
                      (st.accelMin.y + st.accelMax.y) / 2,
                      (st.accelMin.z + st.accelMax.z) / 2⟩,
      accelScale := ⟨cmScale st.accelMin.x st.accelMax.x,
                     cmScale st.accelMin.y st.accelMax.y,
                     cmScale st.accelMin.z st.accelMax.z⟩ } }

/-- `CalibrationManager::calculateMagCalibration` (lines 455-470):
offsets are the min/max midpoints, scales follow `cmScale`. -/
def calculateMagCalibration (st : CMState) : CMState :=
  { st with data := { st.data with
      magOffset := ⟨(st.magMin.x + st.magMax.x) / 2,
                    (st.magMin.y + st.magMax.y) / 2,
                    (st.magMin.z + st.magMax.z) / 2⟩,
      magScale := ⟨cmScale st.magMin.x st.magMax.x,
                   cmScale st.magMin.y st.magMax.y,
                   cmScale st.magMin.z st.magMax.z⟩ } }

/-- `CalibrationManager::updateCalibration` (lines 80-166): a no-op in
`CAL_IDLE`/`CAL_COMPLETE`, otherwise one step of the state machine using
the current accel/mag readings, with `_lastUpdateTime` refreshed at the
end. -/
def cmUpdateCalibration (now : ℕ) (acc mag : Vec3Q) (st : CMState) : CMState :=
  if st.calState = .IDLE ∨ st.calState = .COMPLETE then st
  else
    let st' :=
      match st.calState with
      | .ACCEL_START => { st with calState := .ACCEL_COLLECT }
      | .ACCEL_COLLECT =>
          let st1 := collectAccelSample acc st
          if st1.requiredSamples ≤ st1.sampleCount then
            let st2 := calculateAccelCalibration st1
            { st2 with data := { st2.data with accelCalibrated := true },
                       calState := .ACCEL_COMPLETE, sampleCount := 0 }
          else st1
      | .ACCEL_COMPLETE =>
          { st with calState := .MAG_START,
                    magMin := ⟨1000, 1000, 1000⟩, magMax := ⟨-1000, -1000, -1000⟩ }
      | .MAG_START => { st with calState := .MAG_COLLECT }
      | .MAG_COLLECT =>
          let st1 := collectMagSample mag st
          if st1.requiredSamples ≤ st1.sampleCount then
            let st2 := calculateMagCalibration st1
            { st2 with data := { st2.data with magCalibrated := true },
                       calState := .MAG_COMPLETE }
          else st1
      | .MAG_COMPLETE =>
          { st with calState := .COMPLETE, data := { st.data with timestamp := now } }
      | _ => st
    { st' with lastUpdateTime := now }

/-- `CalibrationManager::cancelCalibration` (lines 169-174): drop back to
`CAL_IDLE` when a session is active; nothing else is touched. -/
def cmCancelCalibration (st : CMState) : CMState :=
  if st.calState ≠ .IDLE ∧ st.calState ≠ .COMPLETE then
    { st with calState := .IDLE }
  else st

/-- `CalibrationManager::isCalibrating`. -/
def cmIsCalibrating (st : CMState) : Bool :=
  st.calState ≠ .IDLE ∧ st.calState ≠ .COMPLETE

/-- `CalibrationManager::isCalibrated` (lines 378-380): both sensors must
have completed their phase. -/
def cmIsCalibrated (st : CMState) : Bool :=
  st.data.accelCalibrated && st.data.magCalibrated

/-- `CalibrationManager::saveCalibrationData` (lines 298-340): refuse
(returning `false` and writing no key) unless `isCalibrated()`; otherwise
write the validity flag, both calibrated flags, the per-sensor vectors for
the sensors marked calibrated, and the timestamp. -/
def cmSaveCalibrationData (st : CMState) : Bool × CMState :=
  if cmIsCalibrated st then
    let s1 := { st.store with cal_valid := some true }
    let s2 := { s1 with accel_cal := some st.data.accelCalibrated }
    let s3 := if st.data.accelCalibrated then
        { s2 with accel_o := some st.data.accelOffset, accel_s := some st.data.accelScale }
      else s2
    let s4 := { s3 with mag_cal := some st.data.magCalibrated }
    let s5 := if st.data.magCalibrated then
        { s4 with mag_o := some st.data.magOffset, mag_s := some st.data.magScale }
      else s4
    let s6 := { s5 with cal_time := some st.data.timestamp }
    (true, { st with store := s6 })
  else (false, st)

/-- One tick of input to `updateCalibration`: current time and the two
sensor readings. -/
structure CMIn where
  now : ℕ
  acc : Vec3Q
  mag : Vec3Q
deriving DecidableEq

/-- A sequence of `updateCalibration` calls applied to a manager state. -/
def runCMUpdates (ticks : List CMIn) (st : CMState) : CMState :=
  ticks.foldl (fun s i => cmUpdateCalibration i.now i.acc i.mag s) st

/-- A symmetric, well-spread completed collection state: every axis saw raw
values from -500 to 500 (150 samples, session started at time 0). -/
def calCE : BMM150State :=
  { hard_iron_x := 0, hard_iron_y := 0, hard_iron_z := 0,
    scale_x := 1, scale_y := 1, scale_z := 1, isCalibrated := false,
    min_x := -500, max_x := 500, min_y := -500, max_y := 500,
    min_z := -500, max_z := 500, calibrationStartTime := 0, sampleCount := 150 }

/-- A completed collection state whose z axis saw only -50..50 (range 50,
below the 100-unit gate) while x and y saw -500..500. -/
def calF : BMM150State :=
  { hard_iron_x := 0, hard_iron_y := 0, hard_iron_z := 0,
    scale_x := 1, scale_y := 1, scale_z := 1, isCalibrated := false,
    min_x := -500, max_x := 500, min_y := -500, max_y := 500,
    min_z := -50, max_z := 50, calibrationStartTime := 0, sampleCount := 150 }

/-- The empty preferences store: no calibration key has ever been written. -/
def emptyStore : PrefStore := ⟨none, none, none, none, none, none, none, none⟩

/-- A manager state whose magnetometer phase completed but whose
accelerometer phase did not (so `isCalibrated()` is false). -/
def cmNoAccel : CMState :=
  { calState := .IDLE,
    data := { accelOffset := ⟨0, 0, 0⟩, accelScale := ⟨1, 1, 1⟩,
              magOffset := ⟨7, 8, 9⟩, magScale := ⟨2, 2, 2⟩,
              accelCalibrated := false, magCalibrated := true, timestamp := 5 },
    accelMin := ⟨0, 0, 0⟩, accelMax := ⟨0, 0, 0⟩,
    magMin := ⟨0, 0, 0⟩, magMax := ⟨0, 0, 0⟩,
    sampleCount := 0, requiredSamples := 100, calibrationStartTime := 0,
    lastUpdateTime := 0, store := emptyStore }

/-- A manager state carrying a fully calibrated data set (both flags true,
non-default vectors), as left by a previous successful session. -/
def cmCalibrated : CMState :=
  { calState := .IDLE,
    data := { accelOffset := ⟨1, 2, 3⟩, accelScale := ⟨2, 2, 2⟩,
              magOffset := ⟨4, 5, 6⟩, magScale := ⟨3, 3, 3⟩,
              accelCalibrated := true, magCalibrated := true, timestamp := 42 },
    accelMin := ⟨0, 0, 0⟩, accelMax := ⟨0, 0, 0⟩,
    magMin := ⟨0, 0, 0⟩, magMax := ⟨0, 0, 0⟩,
    sampleCount := 0, requiredSamples := 100, calibrationStartTime := 0,
    lastUpdateTime := 0, store := emptyStore }

/-- Comparison definition for the zero-accelerometer skip in the
root-variant `IMUFusion::update`: the same computation as `fusionUpdate`
with the accelerometer-derived error lines removed (no accel normalization,
no gravity estimate, no gravity-error cross product), so the error fed back
is the magnetometer error alone when `_isCalibrated`, and zero otherwise.
Used only to state that a zero accelerometer sample skips exactly the
gravity-correction step. -/
noncomputable def fusionUpdateMagOnly (isCal : Bool) (filterGain : ℝ) (q : Quat)
    (gyr mag : V3) (deltaTime : ℝ) : Quat :=
  let gx := gyr.x * DEG_TO_RAD
  let gy := gyr.y * DEG_TO_RAD
  let gz := gyr.z * DEG_TO_RAD
  let mx := mag.x
  let my := mag.y
  let mz := mag.z
  let normMag := Real.sqrt (mx * mx + my * my + mz * mz)
  let mx := if 0 < normMag then mx / normMag else mx
  let my := if 0 < normMag then my / normMag else my
  let mz := if 0 < normMag then mz / normMag else mz
  let q0q0 := q.q0 * q.q0
  let q0q1 := q.q0 * q.q1
  let q0q2 := q.q0 * q.q2
  let q0q3 := q.q0 * q.q3
  let q1q1 := q.q1 * q.q1
  let q1q2 := q.q1 * q.q2
  let q1q3 := q.q1 * q.q3
  let q2q2 := q.q2 * q.q2
  let q2q3 := q.q2 * q.q3
  let q3q3 := q.q3 * q.q3
  let hx := 2 * (mx * (0.5 - q2q2 - q3q3) + my * (q1q2 - q0q3) + mz * (q1q3 + q0q2))
  let hy := 2 * (mx * (q1q2 + q0q3) + my * (0.5 - q1q1 - q3q3) + mz * (q2q3 - q0q1))
  let hz := 2 * (mx * (q1q3 - q0q2) + my * (q2q3 + q0q1) + mz * (0.5 - q1q1 - q2q2))
  let magX := 2 * (hx * (0.5 - q2q2 - q3q3) + hy * (q1q2 - q0q3) + hz * (q1q3 + q0q2))
  let magY := 2 * (hx * (q1q2 + q0q3) + hy * (0.5 - q1q1 - q3q3) + hz * (q2q3 - q0q1))
  let magZ := 2 * (hx * (q1q3 - q0q2) + hy * (q2q3 + q0q1) + hz * (0.5 - q1q1 - q2q2))
  let ex := if isCal then my * magZ - mz * magY else 0
  let ey := if isCal then mz * magX - mx * magZ else 0
  let ez := if isCal then mx * magY - my * magX else 0
  let gx := gx + filterGain * ex
  let gy := gy + filterGain * ey
  let gz := gz + filterGain * ez
  normalizeQuaternion (integrateQuat q gx gy gz (0.5 * deltaTime))

/-- Comparison definition for the zero-magnetometer skip in
`myIMU::MahonyAHRSupdate`: the same computation as `mahonyUpdate` with the
magnetometer branch removed, so a valid accelerometer always yields the
gravity-only error.  Used only to state that a zero magnetometer sample
skips exactly the magnetic-field correction. -/
noncomputable def mahonyUpdateGravityOnly (Kp Ki : ℝ) (st : MahonyState) (g a : V3)
    (dt : ℝ) : MahonyState :=
  let q := st.q
  let corr :=
    if ¬(a.x = 0 ∧ a.y = 0 ∧ a.z = 0) then
      let norm1 := Real.sqrt (a.x * a.x + a.y * a.y + a.z * a.z)
      let ax := a.x / norm1
      let ay := a.y / norm1
      let az := a.z / norm1
      let e :=
        let vx := 2 * (q.q1 * q.q3 - q.q0 * q.q2)
        let vy := 2 * (q.q0 * q.q1 + q.q2 * q.q3)
        let vz := q.q0 * q.q0 - q.q1 * q.q1 - q.q2 * q.q2 + q.q3 * q.q3
        V3.mk (ay * vz - az * vy) (az * vx - ax * vz) (ax * vy - ay * vx)
      let e0 := st.eInt.x + e.x * Ki * dt
      let e1 := st.eInt.y + e.y * Ki * dt
      let e2 := st.eInt.z + e.z * Ki * dt
      (g.x + Kp * e.x + e0, g.y + Kp * e.y + e1, g.z + Kp * e.z + e2, V3.mk e0 e1 e2)
    else
      (g.x, g.y, g.z, st.eInt)
  ⟨mahonyIntegrate q corr.1 corr.2.1 corr.2.2.1 dt, corr.2.2.2⟩

/-! ### Norm-preservation lemmas for the quaternion state -/

lemma normSq_nonneg (q : Quat) : 0 ≤ normSq q := by
  have h0 := mul_self_nonneg q.q0
  have h1 := mul_self_nonneg q.q1
  have h2 := mul_self_nonneg q.q2
  have h3 := mul_self_nonneg q.q3
  simp only [normSq]
  linarith

lemma div_sqrt_norm_unit (a b c d : ℝ) (h : 0 < a * a + b * b + c * c + d * d) :
    normSq ⟨a / Real.sqrt (a * a + b * b + c * c + d * d),
            b / Real.sqrt (a * a + b * b + c * c + d * d),
            c / Real.sqrt (a * a + b * b + c * c + d * d),
            d / Real.sqrt (a * a + b * b + c * c + d * d)⟩ = 1 := by
  have hs : 0 < Real.sqrt (a * a + b * b + c * c + d * d) := Real.sqrt_pos.mpr h
  have hss : Real.sqrt (a * a + b * b + c * c + d * d) *
      Real.sqrt (a * a + b * b + c * c + d * d) = a * a + b * b + c * c + d * d :=
    Real.mul_self_sqrt h.le
  simp only [normSq]
  field_simp

lemma normSq_normalizeQuaternion (p : Quat) (h : 0 < normSq p) :
    normSq (normalizeQuaternion p) = 1 := by
  have hs : 0 < Real.sqrt (normSq p) := Real.sqrt_pos.mpr h
  have key := div_sqrt_norm_unit p.q0 p.q1 p.q2 p.q3 (by simpa [normSq] using h)
  simp only [normalizeQuaternion]
  rw [if_pos hs]
  simpa [normSq] using key

lemma std_prenorm_pos (q0 q1 q2 q3 gx gy gz c : ℝ)
    (hq : q0 * q0 + q1 * q1 + q2 * q2 + q3 * q3 = 1) :
    0 < (q0 + (-q1 * gx - q2 * gy - q3 * gz) * c) * (q0 + (-q1 * gx - q2 * gy - q3 * gz) * c)
      + (q1 + (q0 * gx + q2 * gz - q3 * gy) * c) * (q1 + (q0 * gx + q2 * gz - q3 * gy) * c)
      + (q2 + (q0 * gy - q1 * gz + q3 * gx) * c) * (q2 + (q0 * gy - q1 * gz + q3 * gx) * c)
      + (q3 + (q0 * gz + q1 * gy - q2 * gx) * c) * (q3 + (q0 * gz + q1 * gy - q2 * gx) * c) := by
  have key : (q0 + (-q1 * gx - q2 * gy - q3 * gz) * c) * (q0 + (-q1 * gx - q2 * gy - q3 * gz) * c)
      + (q1 + (q0 * gx + q2 * gz - q3 * gy) * c) * (q1 + (q0 * gx + q2 * gz - q3 * gy) * c)
      + (q2 + (q0 * gy - q1 * gz + q3 * gx) * c) * (q2 + (q0 * gy - q1 * gz + q3 * gx) * c)
      + (q3 + (q0 * gz + q1 * gy - q2 * gx) * c) * (q3 + (q0 * gz + q1 * gy - q2 * gx) * c)
      = (q0 * q0 + q1 * q1 + q2 * q2 + q3 * q3) *
        (1 + c * c * (gx * gx + gy * gy + gz * gz)) := by ring
  rw [key, hq, one_mul]
  have h1 : 0 ≤ (c * gx) * (c * gx) + (c * gy) * (c * gy) + (c * gz) * (c * gz) := by
    have := mul_self_nonneg (c * gx)
    have := mul_self_nonneg (c * gy)
    have := mul_self_nonneg (c * gz)
    linarith
  have h2 : c * c * (gx * gx + gy * gy + gz * gz)
      = (c * gx) * (c * gx) + (c * gy) * (c * gy) + (c * gz) * (c * gz) := by ring
  rw [h2]
  linarith

lemma compIntegrate_pos (q : Quat) (gx gy gz dt : ℝ) (hq : normSq q = 1) :
    0 < normSq (compIntegrate q gx gy gz dt) := by
  have key : normSq (compIntegrate q gx gy gz dt)
      = normSq q * (1 + (0.5 * dt) * (0.5 * dt) * (gx * gx + gy * gy + gz * gz)) := by
    simp only [compIntegrate, normSq]
    ring
  rw [key, hq, one_mul]
  have h1 : 0 ≤ (0.5 * dt * gx) * (0.5 * dt * gx) + (0.5 * dt * gy) * (0.5 * dt * gy)
      + (0.5 * dt * gz) * (0.5 * dt * gz) := by
    have := mul_self_nonneg (0.5 * dt * gx)
    have := mul_self_nonneg (0.5 * dt * gy)
    have := mul_self_nonneg (0.5 * dt * gz)
    linarith
  have h2 : (0.5 * dt) * (0.5 * dt) * (gx * gx + gy * gy + gz * gz)
      = (0.5 * dt * gx) * (0.5 * dt * gx) + (0.5 * dt * gy) * (0.5 * dt * gy)
      + (0.5 * dt * gz) * (0.5 * dt * gz) := by ring
  rw [h2]
  linarith

lemma integrateQuat_pos (q : Quat) (gx gy gz c : ℝ) (hq : normSq q = 1) :
    0 < normSq (integrateQuat q gx gy gz c) := by
  simp only [integrateQuat, normSq]
  by_contra hle
  push_neg at hle
  set n0 := q.q0 + (-q.q1 * gx - q.q2 * gy - q.q3 * gz) * c with hn0
  set n1 := q.q1 + (n0 * gx + q.q2 * gz - q.q3 * gy) * c with hn1
  set n2 := q.q2 + (n0 * gy - q.q1 * gz + q.q3 * gx) * c with hn2
  set n3 := q.q3 + (n0 * gz + q.q1 * gy - q.q2 * gx) * c with hn3
  have m0 := mul_self_nonneg n0
  have m1 := mul_self_nonneg n1
  have m2 := mul_self_nonneg n2
  have m3 := mul_self_nonneg n3
  have h0 : n0 = 0 := mul_self_eq_zero.mp (le_antisymm (by linarith) m0)
  have h1 : n1 = 0 := mul_self_eq_zero.mp (le_antisymm (by linarith) m1)
  have h2 : n2 = 0 := mul_self_eq_zero.mp (le_antisymm (by linarith) m2)
  have h3 : n3 = 0 := mul_self_eq_zero.mp (le_antisymm (by linarith) m3)
  rw [hn1, h0] at h1
  rw [hn2, h0] at h2
  rw [hn3, h0] at h3
  have hv : q.q1 * q.q1 + q.q2 * q.q2 + q.q3 * q.q3 = 0 := by
    linear_combination q.q1 * h1 + q.q2 * h2 + q.q3 * h3
  have v1 := mul_self_nonneg q.q1
  have v2 := mul_self_nonneg q.q2
  have v3 := mul_self_nonneg q.q3
  have hq1 : q.q1 = 0 := mul_self_eq_zero.mp (le_antisymm (by linarith) v1)
  have hq2 : q.q2 = 0 := mul_self_eq_zero.mp (le_antisymm (by linarith) v2)
  have hq3 : q.q3 = 0 := mul_self_eq_zero.mp (le_antisymm (by linarith) v3)
  rw [hn0] at h0
  have hq0 : q.q0 = 0 := by
    linear_combination h0 + c * gx * hq1 + c * gy * hq2 + c * gz * hq3
  simp only [normSq] at hq
  rw [hq0, hq1, hq2, hq3] at hq
  norm_num at hq

lemma fusionUpdate_unit (i : Bool) (gain : ℝ) (q : Quat) (gyr acc mag : V3) (dt : ℝ)
    (hq : normSq q = 1) :
    normSq (fusionUpdate i gain q gyr acc mag dt) = 1 := by
  simp only [fusionUpdate]
  exact normSq_normalizeQuaternion _ (integrateQuat_pos _ _ _ _ _ hq)

lemma compUpdate_unit (st : CompState) (deltaTime wallDt : ℝ) (gyr acc mag : V3)
    (hq : normSq st.q = 1) :
    normSq (compUpdate st deltaTime wallDt gyr acc mag).q = 1 := by
  simp only [compUpdate]
  exact normSq_normalizeQuaternion _ (compIntegrate_pos _ _ _ _ _ hq)

lemma mahonyUpdate_unit (Kp Ki : ℝ) (st : MahonyState) (g a m : V3) (dt : ℝ)
    (hq : normSq st.q = 1) :
    normSq (mahonyUpdate Kp Ki st g a m dt).q = 1 := by
  have hq' : st.q.q0 * st.q.q0 + st.q.q1 * st.q.q1 + st.q.q2 * st.q.q2 + st.q.q3 * st.q.q3 = 1 := by
    simpa [normSq] using hq
  simp only [mahonyUpdate, mahonyIntegrate]
  exact div_sqrt_norm_unit _ _ _ _ (std_prenorm_pos _ _ _ _ _ _ _ _ hq')

lemma foldFusion_unit (ins : List FusionIn) (q : Quat) (hq : normSq q = 1) :
    normSq (ins.foldl (fun q i => fusionUpdate i.isCal i.gain q i.gyr i.acc i.mag i.dt) q) = 1 := by
  induction ins generalizing q with
  | nil => simpa using hq
  | cons i t ih => exact ih _ (fusionUpdate_unit _ _ _ _ _ _ _ hq)

lemma foldComp_unit (ins : List CompIn) (st : CompState) (hq : normSq st.q = 1) :
    normSq ((ins.foldl (fun st i => compUpdate st i.deltaTime i.wallDt i.gyr i.acc i.mag) st).q) = 1 := by
  induction ins generalizing st with
  | nil => simpa using hq
  | cons i t ih => exact ih _ (compUpdate_unit _ _ _ _ _ _ hq)

lemma foldMahony_unit (Kp Ki : ℝ) (ins : List MahonyIn) (st : MahonyState)
    (hq : normSq st.q = 1) :
    normSq ((ins.foldl (fun st i => mahonyUpdate Kp Ki st i.g i.a i.m i.dt) st).q) = 1 := by
  induction ins generalizing st with
  | nil => simpa using hq
  | cons i t ih => exact ih _ (mahonyUpdate_unit _ _ _ _ _ _ _ hq)

/-- C1: for every sequence of `update()` calls, starting from the identity
quaternion, the stored quaternion has Euclidean norm 1 within `1e-4` after
each call returns.  In the exact-arithmetic model the norm is exactly 1, for
all three fusion-update variants present in the repository (the root-variant
Mahony-style `IMUFusion::update`, the src-variant complementary
`IMUFusion::update`, and `myIMU::MahonyAHRSupdate`); the tolerance claim
follows.  Quantifying over all input lists covers the state after every
prefix of a call sequence. -/
theorem quaternion_norm_unit_after_every_update :
    (∀ ins : List FusionIn, |Real.sqrt (normSq (runFusion ins)) - 1| ≤ 1 / 10000)
    ∧ (∀ ins : List CompIn, |Real.sqrt (normSq (runComp ins).q) - 1| ≤ 1 / 10000)
    ∧ (∀ Kp Ki : ℝ, ∀ ins : List MahonyIn,
        |Real.sqrt (normSq (runMahony Kp Ki ins).q) - 1| ≤ 1 / 10000) := by
  refine ⟨fun ins => ?_, fun ins => ?_, fun Kp Ki ins => ?_⟩
  · have h : normSq (runFusion ins) = 1 := by
      apply foldFusion_unit
      simp [normSq]
    rw [h, Real.sqrt_one]
    norm_num
  · have h : normSq (runComp ins).q = 1 := by
      apply foldComp_unit
      simp [initCompState, normSq]
    rw [h, Real.sqrt_one]
    norm_num
  · have h : normSq (runMahony Kp Ki ins).q = 1 := by
      apply foldMahony_unit
      simp [normSq]
    rw [h, Real.sqrt_one]
    norm_num

/-- C8 (amended): in the root-variant (Mahony-style) `IMUFusion::update`,
when `_isCalibrated` is false the magnetometer sample has no effect at all
on the resulting quaternion: the error/blend terms that involve it sit
behind the `if (_isCalibrated)` test.  (The src-variant complementary
filter violates the original claim; see the counterexample.) -/
theorem mag_excluded_when_uncalibrated_mahony (gain : ℝ) (q : Quat)
    (gyr acc mag mag' : V3) (dt : ℝ) :
    fusionUpdate false gain q gyr acc mag dt = fusionUpdate false gain q gyr acc mag' dt := rfl

/-- C9: degenerate-sample guards of `IMUFusion::update`,
`IMUFusion::normalizeQuaternion` and `myIMU::MahonyAHRSupdate`, covering
every norm-non-positive (in the exact model: all-zero) accelerometer or
magnetometer sample.  (1) Root update, zero accelerometer: exactly the
gravity-correction step drops out — the update equals `fusionUpdateMagOnly`
(the same computation with the accelerometer-error lines removed), so the
magnetometer correction still applies when calibrated and no division by
the zero norm occurs.  (2) Root update, zero magnetometer: the magnetometer
correction contributes nothing even when calibrated.  (3) Both samples
zero: the update is the pure gyro integration followed by normalization.
(4) `MahonyAHRSupdate`, zero accelerometer: the whole correction block is
skipped — raw gyro rates are integrated and the integral error is
untouched.  (5) `MahonyAHRSupdate`, zero magnetometer: exactly the
magnetic-field branch drops out — the update equals
`mahonyUpdateGravityOnly` (the same computation with the magnetometer
branch removed).  (6) `normalizeQuaternion` leaves the quaternion unchanged
whenever its squared norm is non-positive. -/
theorem degenerate_sample_guards :
    (∀ (isCal : Bool) (gain : ℝ) (q : Quat) (gyr mag : V3) (dt : ℝ),
      fusionUpdate isCal gain q gyr ⟨0, 0, 0⟩ mag dt
        = fusionUpdateMagOnly isCal gain q gyr mag dt)
    ∧ (∀ (gain : ℝ) (q : Quat) (gyr acc : V3) (dt : ℝ),
      fusionUpdate true gain q gyr acc ⟨0, 0, 0⟩ dt
        = fusionUpdate false gain q gyr acc ⟨0, 0, 0⟩ dt)
    ∧ (∀ (isCal : Bool) (gain : ℝ) (q : Quat) (gyr : V3) (dt : ℝ),
      fusionUpdate isCal gain q gyr ⟨0, 0, 0⟩ ⟨0, 0, 0⟩ dt
        = normalizeQuaternion (integrateQuat q (gyr.x * DEG_TO_RAD) (gyr.y * DEG_TO_RAD)
            (gyr.z * DEG_TO_RAD) (0.5 * dt)))
    ∧ (∀ (Kp Ki : ℝ) (st : MahonyState) (g m : V3) (dt : ℝ),
      mahonyUpdate Kp Ki st g ⟨0, 0, 0⟩ m dt
        = ⟨mahonyIntegrate st.q g.x g.y g.z dt, st.eInt⟩)
    ∧ (∀ (Kp Ki : ℝ) (st : MahonyState) (g a : V3) (dt : ℝ),
      mahonyUpdate Kp Ki st g a ⟨0, 0, 0⟩ dt
        = mahonyUpdateGravityOnly Kp Ki st g a dt)
    ∧ (∀ p : Quat, normSq p ≤ 0 → normalizeQuaternion p = p) := by
  refine ⟨fun isCal gain q gyr mag dt => ?_, fun gain q gyr acc dt => ?_,
    fun isCal gain q gyr dt => ?_, fun Kp Ki st g m dt => ?_,
    fun Kp Ki st g a dt => ?_, fun p hp => ?_⟩
  · simp [fusionUpdate, fusionUpdateMagOnly]
  · simp [fusionUpdate]
  · simp [fusionUpdate]
  · simp [mahonyUpdate]
  · simp [mahonyUpdate, mahonyUpdateGravityOnly]
  · have h0 : normSq p = 0 := le_antisymm hp (normSq_nonneg p)
    simp [normalizeQuaternion, h0]

/-- Witness for the guarded-normalization clause of C9 at the zero
quaternion. -/
theorem degenerate_sample_guards_witness :
    normalizeQuaternion ⟨0, 0, 0, 0⟩ = ⟨0, 0, 0, 0⟩ :=
  degenerate_sample_guards.2.2.2.2.2 ⟨0, 0, 0, 0⟩ (by norm_num [normSq])

/-- C2 counterexample: a caller-supplied `deltaTime` of 2 s exceeds 1 s,
yet the src-variant `IMUFusion::update` integrates with 2 s, not with the
10 ms fallback — the sanity check runs only when the argument is
non-positive. -/
theorem deltaTime_fallback_counterexample :
    (1 : ℝ) < 2 ∧ effectiveDeltaTime 2 (1 / 2) = 2
      ∧ effectiveDeltaTime 2 (1 / 2) ≠ 0.01 := by
  norm_num [effectiveDeltaTime]

/-- C2 (amended): only a non-positive `deltaTime` argument triggers the
sanity logic, which then recomputes the step from the wall clock and
substitutes the fixed 10 ms fallback exactly when that recomputed value is
non-positive or exceeds 1 s (so the step actually used is always in
(0, 1] in that case); a positive argument — even one above 1 s — is used
unchanged. -/
theorem deltaTime_fallback_amended (d w : ℝ) :
    (d ≤ 0 → ((w ≤ 0 ∨ 1 < w) → effectiveDeltaTime d w = 0.01)
      ∧ (0 < w → w ≤ 1 → effectiveDeltaTime d w = w)
      ∧ (0 < effectiveDeltaTime d w ∧ effectiveDeltaTime d w ≤ 1))
    ∧ (0 < d → effectiveDeltaTime d w = d) := by
  constructor
  · intro hd
    refine ⟨fun hout => ?_, fun hw1 hw2 => ?_, ?_⟩
    · rw [effectiveDeltaTime, if_pos hd, if_pos hout]
    · rw [effectiveDeltaTime, if_pos hd, if_neg]
      push_neg
      exact ⟨hw1, hw2⟩
    · rw [effectiveDeltaTime, if_pos hd]
      by_cases hout : w ≤ 0 ∨ 1 < w
      · rw [if_pos hout]
        norm_num
      · rw [if_neg hout]
        push_neg at hout
        exact ⟨hout.1, hout.2⟩
  · intro hd
    rw [effectiveDeltaTime, if_neg (by linarith)]

/-- Witness for C2's amended theorem: a stalled wall clock (5 s interval)
with a non-positive argument yields the 10 ms fallback, and an in-range
wall-clock interval is used as-is. -/
theorem deltaTime_fallback_amended_witness :
    effectiveDeltaTime (-1) 5 = 0.01 ∧ effectiveDeltaTime 0 (1 / 2) = 1 / 2 :=
  ⟨((deltaTime_fallback_amended (-1) 5).1 (by norm_num)).1 (Or.inr (by norm_num)),
   ((deltaTime_fallback_amended 0 (1 / 2)).1 (by norm_num)).2.1 (by norm_num) (by norm_num)⟩

lemma atan2_zero_one : atan2 0 1 = 0 := by
  norm_num [atan2]

lemma atan2_one_zero : atan2 1 0 = Real.pi / 2 := by
  norm_num [atan2]

lemma pi_half_deg : Real.pi / 2 * 180 / Real.pi = 90 := by
  field_simp
  ring

lemma tiltHeading_A : calculateTiltCompensatedHeading 1 0 0 0 0 = 0 := by
  norm_num [calculateTiltCompensatedHeading, atan2_zero_one]

lemma tiltHeading_B : calculateTiltCompensatedHeading 0 1 0 0 0 = 90 := by
  norm_num [calculateTiltCompensatedHeading, atan2_one_zero, pi_half_deg]

lemma compCE_A :
    (compUpdate initCompState 1 0 ⟨0, 0, 0⟩ ⟨0, 0, 1⟩ ⟨1, 0, 0⟩).yaw = 0 := by
  norm_num [compUpdate, initCompState, effectiveDeltaTime, compIntegrate,
    normalizeQuaternion, normSq, wrap360, tiltHeading_A, atan2_zero_one,
    DEG_TO_RAD, RAD_TO_DEG]

lemma compCE_B :
    (compUpdate initCompState 1 0 ⟨0, 0, 0⟩ ⟨0, 0, 1⟩ ⟨0, 1, 0⟩).yaw = 9 / 10 := by
  norm_num [compUpdate, initCompState, effectiveDeltaTime, compIntegrate,
    normalizeQuaternion, normSq, wrap360, tiltHeading_B, atan2_zero_one,
    DEG_TO_RAD, RAD_TO_DEG]

/-- C8 counterexample: in the src-variant complementary `IMUFusion::update`
the magnetometer heading is blended into yaw on every tick with no
`_isCalibrated` test.  From the constructor state (not calibrated), one
update with identical gyro/accel input but magnetometer `(1,0,0)` versus
`(0,1,0)` produces different yaw values (0 versus 0.9 degrees), so the
magnetometer does contribute to the orientation update while
`isCalibrated()` is false. -/
theorem mag_blend_uncalibrated_counterexample :
    initCompState.isCalibrated = false ∧
    (compUpdate initCompState 1 0 ⟨0, 0, 0⟩ ⟨0, 0, 1⟩ ⟨1, 0, 0⟩).yaw
      ≠ (compUpdate initCompState 1 0 ⟨0, 0, 0⟩ ⟨0, 0, 1⟩ ⟨0, 1, 0⟩).yaw := by
  refine ⟨rfl, ?_⟩
  rw [compCE_A, compCE_B]
  norm_num

lemma one_le_flooredRange (lo hi : ℤ) : 1 ≤ flooredRange lo hi := by
  simp only [flooredRange]
  split
  · exact le_refl 1
  · next hlt => exact not_lt.mp hlt

lemma cmSave_refuse (cm : CMState) (h : cmIsCalibrated cm = false) :
    cmSaveCalibrationData cm = (false, cm) := by
  simp [cmSaveCalibrationData, h]


/-- C3: at evaluation time (elapsed >= 15 s), for each axis the stored
hard-iron offset is exactly `(min+max)/2`, the per-axis range is floored at
the positive epsilon 1 (so it is never zero), each scale factor satisfies
`scale * range = avgRange` exactly (avgRange being the mean of the three
floored ranges), and every scale factor is positive (and, being a rational,
finite). -/
theorem mag_calibration_eval_laws (st : BMM150State) (now : ℕ) (raw : ℤ × ℤ × ℤ)
    (h : 15000 ≤ now - st.calibrationStartTime) :
    ((bmm150CalibrateStep false now raw st).1.hard_iron_x = ((st.min_x + st.max_x : ℤ) : ℚ) / 2
      ∧ (bmm150CalibrateStep false now raw st).1.hard_iron_y = ((st.min_y + st.max_y : ℤ) : ℚ) / 2
      ∧ (bmm150CalibrateStep false now raw st).1.hard_iron_z = ((st.min_z + st.max_z : ℤ) : ℚ) / 2)
    ∧ (1 ≤ flooredRange st.min_x st.max_x ∧ 1 ≤ flooredRange st.min_y st.max_y
      ∧ 1 ≤ flooredRange st.min_z st.max_z)
    ∧ ((bmm150CalibrateStep false now raw st).1.scale_x * flooredRange st.min_x st.max_x
        = (flooredRange st.min_x st.max_x + flooredRange st.min_y st.max_y
          + flooredRange st.min_z st.max_z) / 3
      ∧ (bmm150CalibrateStep false now raw st).1.scale_y * flooredRange st.min_y st.max_y
        = (flooredRange st.min_x st.max_x + flooredRange st.min_y st.max_y
          + flooredRange st.min_z st.max_z) / 3
      ∧ (bmm150CalibrateStep false now raw st).1.scale_z * flooredRange st.min_z st.max_z
        = (flooredRange st.min_x st.max_x + flooredRange st.min_y st.max_y
          + flooredRange st.min_z st.max_z) / 3)
    ∧ (0 < (bmm150CalibrateStep false now raw st).1.scale_x
      ∧ 0 < (bmm150CalibrateStep false now raw st).1.scale_y
      ∧ 0 < (bmm150CalibrateStep false now raw st).1.scale_z) := by
  have hrx := one_le_flooredRange st.min_x st.max_x
  have hry := one_le_flooredRange st.min_y st.max_y
  have hrz := one_le_flooredRange st.min_z st.max_z
  have hpx : (0 : ℚ) < flooredRange st.min_x st.max_x := by linarith
  have hpy : (0 : ℚ) < flooredRange st.min_y st.max_y := by linarith
  have hpz : (0 : ℚ) < flooredRange st.min_z st.max_z := by linarith
  have havg : (0 : ℚ) < (flooredRange st.min_x st.max_x + flooredRange st.min_y st.max_y
      + flooredRange st.min_z st.max_z) / 3 := by positivity
  simp only [bmm150CalibrateStep, Bool.false_eq_true, if_false, if_pos h]
  refine ⟨⟨trivial, trivial, trivial⟩, ⟨hrx, hry, hrz⟩, ⟨?_, ?_, ?_⟩, ⟨?_, ?_, ?_⟩⟩
  · exact div_mul_cancel₀ _ (ne_of_gt hpx)
  · exact div_mul_cancel₀ _ (ne_of_gt hpy)
  · exact div_mul_cancel₀ _ (ne_of_gt hpz)
  · exact div_pos havg hpx
  · exact div_pos havg hpy
  · exact div_pos havg hpz

lemma bmm150_gate_iff (st : BMM150State) (now : ℕ) (raw : ℤ × ℤ × ℤ)
    (h : 15000 ≤ now - st.calibrationStartTime) :
    ((bmm150CalibrateStep false now raw st).1.isCalibrated = true ↔
      (100 ≤ flooredRange st.min_x st.max_x ∧ 100 ≤ flooredRange st.min_y st.max_y
        ∧ 100 ≤ flooredRange st.min_z st.max_z
        ∧ 3 / 10 ≤ min (flooredRange st.min_x st.max_x)
            (min (flooredRange st.min_y st.max_y) (flooredRange st.min_z st.max_z))
          / max (flooredRange st.min_x st.max_x)
            (max (flooredRange st.min_y st.max_y) (flooredRange st.min_z st.max_z)))) := by
  have hrx := one_le_flooredRange st.min_x st.max_x
  have hmx : (0 : ℚ) < max (flooredRange st.min_x st.max_x)
      (max (flooredRange st.min_y st.max_y) (flooredRange st.min_z st.max_z)) :=
    lt_of_lt_of_le (by linarith) (le_max_left _ _)
  have hdiv : 3 / 10 ≤ min (flooredRange st.min_x st.max_x)
      (min (flooredRange st.min_y st.max_y) (flooredRange st.min_z st.max_z))
      / max (flooredRange st.min_x st.max_x)
        (max (flooredRange st.min_y st.max_y) (flooredRange st.min_z st.max_z)) ↔
      3 / 10 * max (flooredRange st.min_x st.max_x)
        (max (flooredRange st.min_y st.max_y) (flooredRange st.min_z st.max_z))
      ≤ min (flooredRange st.min_x st.max_x)
        (min (flooredRange st.min_y st.max_y) (flooredRange st.min_z st.max_z)) :=
    le_div_iff hmx
  simp only [bmm150CalibrateStep, Bool.false_eq_true, if_false, if_pos h]
  by_cases h1 : min (flooredRange st.min_x st.max_x)
      (min (flooredRange st.min_y st.max_y) (flooredRange st.min_z st.max_z))
      < max (flooredRange st.min_x st.max_x)
        (max (flooredRange st.min_y st.max_y) (flooredRange st.min_z st.max_z)) * (3 / 10)
  · simp only [if_pos h1]
    constructor
    · intro hfalse
      exact absurd hfalse (by simp)
    · rintro ⟨-, -, -, hd⟩
      rw [hdiv] at hd
      linarith
  · by_cases h2 : flooredRange st.min_x st.max_x < 100 ∨ flooredRange st.min_y st.max_y < 100
        ∨ flooredRange st.min_z st.max_z < 100
    · simp only [if_neg h1, if_pos h2]
      constructor
      · intro hfalse
        exact absurd hfalse (by simp)
      · rintro ⟨hx, hy, hz, -⟩
        rcases h2 with h2 | h2 | h2 <;> linarith
    · simp only [if_neg h1, if_neg h2]
      push_neg at h2
      constructor
      · intro _
        refine ⟨h2.1, h2.2.1, h2.2.2, ?_⟩
        rw [hdiv]
        push_neg at h1
        linarith
      · intro _
        trivial

/-- C4: at evaluation time the calibrated flag is set to true exactly when
both gate conditions hold — every per-axis (floored) range is at least 100
raw units and min(range)/max(range) >= 0.3; in particular a session in
which any axis has range below 100 yields a false calibrated flag. -/
theorem calibration_quality_gate_iff (st : BMM150State) (now : ℕ) (raw : ℤ × ℤ × ℤ)
    (h : 15000 ≤ now - st.calibrationStartTime) :
    ((bmm150CalibrateStep false now raw st).1.isCalibrated = true ↔
      (100 ≤ flooredRange st.min_x st.max_x ∧ 100 ≤ flooredRange st.min_y st.max_y
        ∧ 100 ≤ flooredRange st.min_z st.max_z
        ∧ 3 / 10 ≤ min (flooredRange st.min_x st.max_x)
            (min (flooredRange st.min_y st.max_y) (flooredRange st.min_z st.max_z))
          / max (flooredRange st.min_x st.max_x)
            (max (flooredRange st.min_y st.max_y) (flooredRange st.min_z st.max_z))))
    ∧ ((flooredRange st.min_x st.max_x < 100 ∨ flooredRange st.min_y st.max_y < 100
        ∨ flooredRange st.min_z st.max_z < 100) →
      (bmm150CalibrateStep false now raw st).1.isCalibrated = false) := by
  refine ⟨bmm150_gate_iff st now raw h, fun hsmall => ?_⟩
  rw [Bool.eq_false_iff]
  intro htrue
  rcases (bmm150_gate_iff st now raw h).mp htrue with ⟨hx, hy, hz, -⟩
  rcases hsmall with hs | hs | hs <;> linarith

/-- Witness for C4 at a concrete symmetric session (every axis -500..500):
the gate passes and the calibrated flag is set. -/
theorem calibration_quality_gate_iff_witness :
    (bmm150CalibrateStep false 20000 (0, 0, 0) calCE).1.isCalibrated = true := by
  apply (calibration_quality_gate_iff calCE 20000 (0, 0, 0) (by norm_num [calCE])).1.mpr
  norm_num [calCE, flooredRange]

/-- Witness for C3 at the same concrete session: the scale law and the
offset law hold with explicit numbers. -/
theorem mag_calibration_eval_laws_witness :
    (bmm150CalibrateStep false 20000 (0, 0, 0) calCE).1.hard_iron_x
        = ((calCE.min_x + calCE.max_x : ℤ) : ℚ) / 2
    ∧ (bmm150CalibrateStep false 20000 (0, 0, 0) calCE).1.scale_x
        * flooredRange calCE.min_x calCE.max_x
      = (flooredRange calCE.min_x calCE.max_x + flooredRange calCE.min_y calCE.max_y
        + flooredRange calCE.min_z calCE.max_z) / 3 := by
  have h := mag_calibration_eval_laws calCE 20000 (0, 0, 0) (by norm_num [calCE])
  exact ⟨h.1.1, h.2.2.1.1⟩

/-- C6 counterexample: a session that has already collected 150 samples
(raw target is 100) but whose 15-second window has not yet elapsed is NOT
finished: `calibrateStep` keeps returning in-progress, so the sample target
alone never ends collection in `BMM150class::calibrateStep`. -/
theorem collection_window_counterexample :
    100 ≤ calCE.sampleCount ∧ ((5000 : ℕ) - calCE.calibrationStartTime) < 15000
      ∧ (bmm150CalibrateStep false 5000 (0, 0, 0) calCE).2 = false := by
  refine ⟨by norm_num [calCE], by norm_num [calCE], ?_⟩
  norm_num [bmm150CalibrateStep, calCE]

/-- C6 (amended): in `BMM150class::calibrateStep` the collecting phase ends
(the step returns `true`, i.e. `Done`) exactly when the elapsed time
reaches the fixed 15-second window — the 100-sample target plays no part in
ending collection there; in the separate `CalibrationManager` state machine
the magnetometer collecting phase conversely completes exactly when the
sample target is reached, with no time condition. -/
theorem collection_window_amended :
    (∀ (st : BMM150State) (now : ℕ) (raw : ℤ × ℤ × ℤ),
      ((bmm150CalibrateStep false now raw st).2 = true ↔
        15000 ≤ now - st.calibrationStartTime))
    ∧ (∀ (st : CMState) (now : ℕ) (acc mag : Vec3Q), st.calState = .MAG_COLLECT →
      ((cmUpdateCalibration now acc mag st).calState = .MAG_COMPLETE ↔
        st.requiredSamples ≤ st.sampleCount + 1)) := by
  constructor
  · intro st now raw
    by_cases h : 15000 ≤ now - st.calibrationStartTime <;>
      simp [bmm150CalibrateStep, h]
  · intro st now acc mag hcs
    obtain ⟨cs, d, amin, amax, mmin, mmax, sc, rs, cst, lut, sto⟩ := st
    replace hcs : cs = CalState.MAG_COLLECT := hcs
    subst hcs
    simp only [cmUpdateCalibration, collectMagSample]
    by_cases hcnt : rs ≤ sc + 1 <;> simp [hcnt]

/-- Witness for C6's amended theorem: a session started at time 0 is Done
at 15000 ms, and a `CAL_MAG_COLLECT` manager with 99 of 100 samples
completes the phase on the 100th sample. -/
theorem collection_window_amended_witness :
    (bmm150CalibrateStep false 15000 (0, 0, 0) calCE).2 = true
    ∧ (cmUpdateCalibration 7 ⟨0, 0, 0⟩ ⟨0, 0, 0⟩
        { cmCalibrated with calState := .MAG_COLLECT, sampleCount := 99 }).calState
      = .MAG_COMPLETE :=
  ⟨(collection_window_amended.1 calCE 15000 (0, 0, 0)).mpr (by norm_num [calCE]),
   (collection_window_amended.2 { cmCalibrated with calState := .MAG_COLLECT, sampleCount := 99 }
      7 ⟨0, 0, 0⟩ ⟨0, 0, 0⟩ rfl).mpr (by norm_num [cmCalibrated])⟩

/-- C5 counterexample: a completed session whose z-axis range is 50 fails
the quality gate, and its best-effort values live only in the in-memory
calibration state (e.g. `scale_z = 7`): the claim's assertion that they are
also stored in the persistent store is false, because the repository's only
store-writing routine, `CalibrationManager::saveCalibrationData`, returns
`false` and writes no key whenever the calibrated flag is false — shown
here on a concrete uncalibrated manager state whose store stays empty. -/
theorem failing_session_not_persisted_counterexample :
    (bmm150CalibrateStep false 20000 (0, 0, 0) calF).1.isCalibrated = false
    ∧ (bmm150CalibrateStep false 20000 (0, 0, 0) calF).1.scale_z = 7
    ∧ cmIsCalibrated cmNoAccel = false
    ∧ cmSaveCalibrationData cmNoAccel = (false, cmNoAccel)
    ∧ cmNoAccel.store.mag_o = none := by
  refine ⟨?_, ?_, rfl, cmSave_refuse cmNoAccel rfl, rfl⟩
  · norm_num [bmm150CalibrateStep, calF, flooredRange]
  · norm_num [bmm150CalibrateStep, calF, flooredRange]

/-- C5 (amended): a completed session that fails the quality gate still
computes and stores the best-effort offsets and scale factors in the
in-memory calibration state while the calibrated flag is set to false — the
collected data is not discarded; it is, however, NOT written to the
persistent store, since `saveCalibrationData` writes nothing when
`isCalibrated()` is false. -/
theorem failing_session_best_effort_amended (st : BMM150State) (now : ℕ) (raw : ℤ × ℤ × ℤ)
    (h : 15000 ≤ now - st.calibrationStartTime)
    (hfail : ¬(100 ≤ flooredRange st.min_x st.max_x ∧ 100 ≤ flooredRange st.min_y st.max_y
      ∧ 100 ≤ flooredRange st.min_z st.max_z
      ∧ 3 / 10 ≤ min (flooredRange st.min_x st.max_x)
          (min (flooredRange st.min_y st.max_y) (flooredRange st.min_z st.max_z))
        / max (flooredRange st.min_x st.max_x)
          (max (flooredRange st.min_y st.max_y) (flooredRange st.min_z st.max_z)))) :
    ((bmm150CalibrateStep false now raw st).1.isCalibrated = false
      ∧ (bmm150CalibrateStep false now raw st).1.hard_iron_x = ((st.min_x + st.max_x : ℤ) : ℚ) / 2
      ∧ (bmm150CalibrateStep false now raw st).1.hard_iron_y = ((st.min_y + st.max_y : ℤ) : ℚ) / 2
      ∧ (bmm150CalibrateStep false now raw st).1.hard_iron_z = ((st.min_z + st.max_z : ℤ) : ℚ) / 2
      ∧ (bmm150CalibrateStep false now raw st).1.scale_x
        = (flooredRange st.min_x st.max_x + flooredRange st.min_y st.max_y
          + flooredRange st.min_z st.max_z) / 3 / flooredRange st.min_x st.max_x
      ∧ (bmm150CalibrateStep false now raw st).1.scale_y
        = (flooredRange st.min_x st.max_x + flooredRange st.min_y st.max_y
          + flooredRange st.min_z st.max_z) / 3 / flooredRange st.min_y st.max_y
      ∧ (bmm150CalibrateStep false now raw st).1.scale_z
        = (flooredRange st.min_x st.max_x + flooredRange st.min_y st.max_y
          + flooredRange st.min_z st.max_z) / 3 / flooredRange st.min_z st.max_z)
    ∧ (∀ cm : CMState, cmIsCalibrated cm = false → cmSaveCalibrationData cm = (false, cm)) := by
  refine ⟨⟨?_, ?_, ?_, ?_, ?_, ?_, ?_⟩, fun cm hcm => cmSave_refuse cm hcm⟩
  · rw [Bool.eq_false_iff]
    intro htrue
    exact hfail ((bmm150_gate_iff st now raw h).mp htrue)
  all_goals simp only [bmm150CalibrateStep, Bool.false_eq_true, if_false, if_pos h]

/-- Witness for C5's amended theorem at the concrete failing session
(z range 50) and the concrete uncalibrated manager state. -/
theorem failing_session_best_effort_amended_witness :
    (bmm150CalibrateStep false 20000 (0, 0, 0) calF).1.isCalibrated = false
    ∧ cmSaveCalibrationData cmNoAccel = (false, cmNoAccel) := by
  have h := failing_session_best_effort_amended calF 20000 (0, 0, 0)
    (by norm_num [calF]) (by norm_num [calF, flooredRange])
  exact ⟨h.1.1, h.2 cmNoAccel rfl⟩

lemma cmStartCalibration_store (accel mag : Bool) (now : ℕ) (st : CMState) :
    (cmStartCalibration accel mag now st).store = st.store := by
  cases accel <;> cases mag <;> rfl

lemma cmUpdateCalibration_store (now : ℕ) (acc mag : Vec3Q) (st : CMState) :
    (cmUpdateCalibration now acc mag st).store = st.store := by
  by_cases h : st.calState = .IDLE ∨ st.calState = .COMPLETE
  · simp [cmUpdateCalibration, h]
  · simp only [cmUpdateCalibration, if_neg h]
    cases hcs : st.calState <;>
      simp [collectAccelSample, collectMagSample,
        calculateAccelCalibration, calculateMagCalibration] <;>
      split <;> rfl

lemma runCMUpdates_store (ticks : List CMIn) (st : CMState) :
    (runCMUpdates ticks st).store = st.store := by
  induction ticks generalizing st with
  | nil => rfl
  | cons i t ih =>
      have hstep : runCMUpdates (i :: t) st
          = runCMUpdates t (cmUpdateCalibration i.now i.acc i.mag st) := rfl
      rw [hstep, ih, cmUpdateCalibration_store]

/-- C7 counterexample: start a magnetometer-only session on a manager that
holds a fully calibrated data set, run one tick, then cancel.  The state
does return to `CAL_IDLE`, but the in-memory calibration vector was reset
when the session started: the `magCalibrated` flag (and the offsets and
scales) were overwritten with defaults by the cancelled session, refuting
the claim that no calibration vector is overwritten. -/
theorem cancel_overwrites_flag_counterexample :
    cmCalibrated.data.magCalibrated = true
    ∧ (cmCancelCalibration (cmUpdateCalibration 7 ⟨0, 0, 0⟩ ⟨0, 0, 0⟩
        (cmStartCalibration false true 0 cmCalibrated))).calState = .IDLE
    ∧ (cmCancelCalibration (cmUpdateCalibration 7 ⟨0, 0, 0⟩ ⟨0, 0, 0⟩
        (cmStartCalibration false true 0 cmCalibrated))).data.magCalibrated = false := by
  refine ⟨rfl, ?_, ?_⟩ <;> rfl

/-- C7 (amended): for every session (any sensors, any tick sequence)
cancelled while still in progress, the state returns to `CAL_IDLE`, the
persistent store is untouched by the whole cancelled session, and
`cancelCalibration` itself modifies nothing but the state field; the
in-memory calibration data, however, was already reset to defaults when the
session started, so the cancelled session leaves those defaults in memory
rather than the pre-session values. -/
theorem cancel_session_amended (st0 : CMState) (accel mag : Bool) (now : ℕ)
    (ticks : List CMIn)
    (hcal : cmIsCalibrating (runCMUpdates ticks (cmStartCalibration accel mag now st0)) = true) :
    (cmCancelCalibration (runCMUpdates ticks (cmStartCalibration accel mag now st0))).calState
        = .IDLE
    ∧ (cmCancelCalibration (runCMUpdates ticks (cmStartCalibration accel mag now st0))).store
        = st0.store
    ∧ (cmCancelCalibration (runCMUpdates ticks (cmStartCalibration accel mag now st0))).data
        = (runCMUpdates ticks (cmStartCalibration accel mag now st0)).data := by
  have hc : (runCMUpdates ticks (cmStartCalibration accel mag now st0)).calState ≠ .IDLE
      ∧ (runCMUpdates ticks (cmStartCalibration accel mag now st0)).calState ≠ .COMPLETE := by
    simpa [cmIsCalibrating] using hcal
  rw [cmCancelCalibration, if_pos hc]
  refine ⟨rfl, ?_, rfl⟩
  rw [show ({ runCMUpdates ticks (cmStartCalibration accel mag now st0) with
      calState := CalState.IDLE } : CMState).store
    = (runCMUpdates ticks (cmStartCalibration accel mag now st0)).store from rfl]
  rw [runCMUpdates_store, cmStartCalibration_store]

/-- Witness for C7's amended theorem: a freshly started (accel+mag) session
cancelled immediately returns to `CAL_IDLE` with the store untouched. -/
theorem cancel_session_amended_witness :
    (cmCancelCalibration (runCMUpdates [] (cmStartCalibration true true 0 cmCalibrated))).calState
        = .IDLE
    ∧ (cmCancelCalibration (runCMUpdates [] (cmStartCalibration true true 0 cmCalibrated))).store
        = cmCalibrated.store := by
  have h := cancel_session_amended cmCalibrated true true 0 [] rfl
  exact ⟨h.1, h.2.1⟩

lemma cmUpdate_preserves_no_accel (now : ℕ) (acc mag : Vec3Q) (st : CMState)
    (h1 : st.data.accelCalibrated = false)
    (h2 : st.calState ≠ .ACCEL_START ∧ st.calState ≠ .ACCEL_COLLECT
      ∧ st.calState ≠ .ACCEL_COMPLETE) :
    (cmUpdateCalibration now acc mag st).data.accelCalibrated = false
    ∧ (cmUpdateCalibration now acc mag st).calState ≠ .ACCEL_START
    ∧ (cmUpdateCalibration now acc mag st).calState ≠ .ACCEL_COLLECT
    ∧ (cmUpdateCalibration now acc mag st).calState ≠ .ACCEL_COMPLETE := by
  obtain ⟨cs, d, amin, amax, mmin, mmax, sc, rs, cst, lut, sto⟩ := st
  replace h1 : d.accelCalibrated = false := h1
  replace h2 : cs ≠ .ACCEL_START ∧ cs ≠ .ACCEL_COLLECT ∧ cs ≠ .ACCEL_COMPLETE := h2
  cases cs
  · simp [cmUpdateCalibration, h1]
  · exact absurd rfl h2.1
  · exact absurd rfl h2.2.1
  · exact absurd rfl h2.2.2
  · simp [cmUpdateCalibration, h1]
  · simp only [cmUpdateCalibration, collectMagSample, calculateMagCalibration]
    by_cases hcnt : rs ≤ sc + 1
    · simp [hcnt, h1]
    · simp [hcnt, h1]
  · simp [cmUpdateCalibration, h1]
  · simp [cmUpdateCalibration, h1]

lemma runCMUpdates_no_accel (ticks : List CMIn) (st : CMState)
    (h1 : st.data.accelCalibrated = false)
    (h2 : st.calState ≠ .ACCEL_START ∧ st.calState ≠ .ACCEL_COLLECT
      ∧ st.calState ≠ .ACCEL_COMPLETE) :
    (runCMUpdates ticks st).data.accelCalibrated = false := by
  induction ticks generalizing st with
  | nil => exact h1
  | cons i t ih =>
      have hstep : runCMUpdates (i :: t) st
          = runCMUpdates t (cmUpdateCalibration i.now i.acc i.mag st) := rfl
      rw [hstep]
      obtain ⟨p1, p2, p3, p4⟩ := cmUpdate_preserves_no_accel i.now i.acc i.mag st h1 h2
      exact ih _ p1 ⟨p2, p3, p4⟩

/-- C10: `isCalibrated()` is the conjunction of the accel and mag phase
flags; `saveCalibrationData()` returns false and writes nothing to the
persistent store whenever `isCalibrated()` is false; and a
magnetometer-only session (`startCalibration(false, true)` followed by any
sequence of `updateCalibration` ticks) can never reach a state that is
reported calibrated or that persists anything. -/
theorem calibrated_requires_both_and_save_gate :
    (∀ st : CMState, cmIsCalibrated st = (st.data.accelCalibrated && st.data.magCalibrated))
    ∧ (∀ st : CMState, cmIsCalibrated st = false → cmSaveCalibrationData st = (false, st))
    ∧ (∀ (st : CMState) (now : ℕ) (ticks : List CMIn),
        cmIsCalibrated (runCMUpdates ticks (cmStartCalibration false true now st)) = false
        ∧ cmSaveCalibrationData (runCMUpdates ticks (cmStartCalibration false true now st))
          = (false, runCMUpdates ticks (cmStartCalibration false true now st))) := by
  have hmag : ∀ (st : CMState) (now : ℕ) (ticks : List CMIn),
      cmIsCalibrated (runCMUpdates ticks (cmStartCalibration false true now st)) = false := by
    intro st now ticks
    have h1 : (cmStartCalibration false true now st).data.accelCalibrated = false := rfl
    have h2 : (cmStartCalibration false true now st).calState = .MAG_START := rfl
    have hfold := runCMUpdates_no_accel ticks _ h1
      (by rw [h2]; exact ⟨by decide, by decide, by decide⟩)
    simp [cmIsCalibrated, hfold]
  exact ⟨fun st => rfl, fun st h => cmSave_refuse st h,
    fun st now ticks => ⟨hmag st now ticks, cmSave_refuse _ (hmag st now ticks)⟩⟩

/-- Witness for C10: the save gate refuses on a concrete mag-only-calibrated
state, and a concrete magnetometer-only session reports not calibrated. -/
theorem calibrated_requires_both_and_save_gate_witness :
    cmSaveCalibrationData cmNoAccel = (false, cmNoAccel)
    ∧ cmIsCalibrated (runCMUpdates [] (cmStartCalibration false true 3 cmCalibrated)) = false :=
  ⟨calibrated_requires_both_and_save_gate.2.1 cmNoAccel rfl,
   (calibrated_requires_both_and_save_gate.2.2 cmCalibrated 3 []).1⟩
